import Mathlib

/-
Verification of the Canteen client-side synchronization layer
(packages/nextjs/hooks/canteen-example/useCanteenWagmi.tsx and
packages/nextjs/app/_components/CanteenDashboard.tsx).

The hook's reconciliation effects, event watchers and mutation callbacks are
shallowly embedded as pure Lean functions.  Remote contract reads are modelled
as oracles `Nat → Option key` / `key → Option detail`, where `none` stands for
a fetch that throws (caught and skipped by the source's per-entry try/catch).
-/

namespace Canteen

/-- Detail record returned by `contract.getMemberDetails(host)`:
`(imageName, active, encryptedMemory)`; the source reads index 1 as the
`active` boolean. -/
structure MemberDetails where
  imageName : String
  active : Bool
  encryptedMemory : List Nat
deriving DecidableEq, Repr

/-- Detail record returned by `contract.getImageDetails(name)`:
`(replicas, deployed, active)`; the source reads index 2 as `active`. -/
structure ImageDetails where
  replicas : Int
  deployed : Int
  active : Bool
deriving DecidableEq, Repr

/-- Element pushed onto `imagesList` by `fetchImages`:
`{ name, replicas: Number(d[0]), deployed: Number(d[1]), active: true }`. -/
structure ImageEntry where
  name : String
  replicas : Int
  deployed : Int
  active : Bool
deriving DecidableEq, Repr

/-- One iteration of the `fetchMembers` loop body for index `i`: fetch the
member key `contract.members(i)`, then its details, and keep the host only
when `active`; any fetch failure (`none`) makes the whole iteration contribute
nothing (the source catches and skips). -/
def memberStep (memberAt : Nat → Option String)
    (getMemberDetails : String → Option MemberDetails) (i : Nat) :
    Option String :=
  (memberAt i).bind fun host =>
    (getMemberDetails host).bind fun md =>
      if md.active then some host else none

/-- The `fetchMembers` pass body: the `for (let i = 0; i < count; i++)` loop
accumulating `membersList`, as a `filterMap` over the index range. -/
def fetchMembersPass (memberAt : Nat → Option String)
    (getMemberDetails : String → Option MemberDetails) (count : Nat) :
    List String :=
  (List.range count).filterMap (memberStep memberAt getMemberDetails)

/-- One iteration of the `fetchImages` loop body for index `i`. -/
def imageStep (imageAt : Nat → Option String)
    (getImageDetails : String → Option ImageDetails) (i : Nat) :
    Option ImageEntry :=
  (imageAt i).bind fun nm =>
    (getImageDetails nm).bind fun det =>
      if det.active then
        some ⟨nm, det.replicas, det.deployed, true⟩
      else none

/-- The `fetchImages` pass body accumulating `imagesList`. -/
def fetchImagesPass (imageAt : Nat → Option String)
    (getImageDetails : String → Option ImageDetails) (count : Nat) :
    List ImageEntry :=
  (List.range count).filterMap (imageStep imageAt getImageDetails)

theorem memberStep_eq_some (k : Nat → Option String)
    (d : String → Option MemberDetails) (i : Nat) (h : String) :
    memberStep k d i = some h ↔
      k i = some h ∧ ∃ md, d h = some md ∧ md.active = true := by
  simp only [memberStep, Option.bind_eq_some, Option.ite_none_right_eq_some,
    Option.some.injEq]
  constructor
  · rintro ⟨host, hk, md, hd, hact, rfl⟩
    exact ⟨hk, md, hd, hact⟩
  · rintro ⟨hk, md, hd, hact⟩
    exact ⟨h, hk, md, hd, hact, rfl⟩

theorem imageStep_eq_some (k : Nat → Option String)
    (d : String → Option ImageDetails) (i : Nat) (e : ImageEntry) :
    imageStep k d i = some e ↔
      ∃ nm det, k i = some nm ∧ d nm = some det ∧ det.active = true ∧
        e = ⟨nm, det.replicas, det.deployed, true⟩ := by
  simp only [imageStep, Option.bind_eq_some, Option.ite_none_right_eq_some,
    Option.some.injEq]
  constructor
  · rintro ⟨nm, hk, det, hd, hact, rfl⟩
    exact ⟨nm, det, hk, hd, hact, rfl⟩
  · rintro ⟨nm, det, hk, hd, hact, rfl⟩
    exact ⟨nm, hk, det, hd, hact, rfl⟩

/-- `filterMap` monotone step: if every hit of `f` is also a hit of `g`, the
`f`-image is a sublist (order-preserving selection) of the `g`-image. -/
theorem filterMap_sublist_of_imp {α β : Type} (f g : α → Option β)
    (l : List α) (hfg : ∀ a b, f a = some b → g a = some b) :
    List.Sublist (l.filterMap f) (l.filterMap g) := by
  induction l with
  | nil => simp
  | cons a l ih =>
    simp only [List.filterMap_cons]
    cases hfa : f a with
    | none =>
      cases hga : g a with
      | none => exact ih
      | some b => exact ih.trans (List.sublist_cons_self b _)
    | some b =>
      rw [hfg a b hfa]
      exact ih.cons₂ b

/-- JavaScript truthiness of the `membersCount` / `imagesCount` read result
(`bigint | undefined`): both `undefined` and `0n` are falsy, so the guard
`if (!canteenContract || !membersCount || !ethersReadonlyProvider) return;`
skips the fetch for an unknown count exactly as for a zero count. -/
def jsTruthyCount : Option Nat → Bool
  | none => false
  | some c => decide (c ≠ 0)

/-- The whole `fetchMembers` effect run: the early-return guard around the
pass body.  When the guard fails the effect returns without calling
`setMembers`, so the previously published list `prior` stays. -/
def fetchMembersEffect (contractResolved providerAvailable : Bool)
    (membersCount : Option Nat) (memberAt : Nat → Option String)
    (getMemberDetails : String → Option MemberDetails)
    (prior : List String) : List String :=
  if contractResolved && jsTruthyCount membersCount && providerAvailable then
    fetchMembersPass memberAt getMemberDetails (membersCount.getD 0)
  else prior

/-- The whole `fetchImages` effect run, with the same guard shape. -/
def fetchImagesEffect (contractResolved providerAvailable : Bool)
    (imagesCount : Option Nat) (imageAt : Nat → Option String)
    (getImageDetails : String → Option ImageDetails)
    (prior : List ImageEntry) : List ImageEntry :=
  if contractResolved && jsTruthyCount imagesCount && providerAvailable then
    fetchImagesPass imageAt getImageDetails (imagesCount.getD 0)
  else prior

/-- A reconciliation pass as it completes: the refresh generation
(`refreshTrigger` dependency value) it was started under, and the list its
loop produced. -/
structure Pass where
  startGen : Nat
  result : List String
deriving DecidableEq, Repr

/-- How completed passes reach the published list: each `fetchMembers` /
`fetchImages` run ends with an unconditional `setMembers(membersList)` /
`setImages(imagesList)` — there is no comparison against the current
generation before writing.  `completionOrder` lists the passes in the order
their async bodies finish; each one wholesale-replaces the published list. -/
def publishAll (completionOrder : List Pass) (init : List String) :
    List String :=
  completionOrder.foldl (fun _ p => p.result) init

/-- Event kinds of the change-notification source. -/
inductive EventKind where
  | memberAdded
  | memberRemoved
  | imageAdded
  | imageRemoved
deriving DecidableEq, Repr

/-- Hook state touched by the watchers and the mutation callbacks. -/
structure HookState where
  message : String
  isProcessing : Bool
  refreshTrigger : Nat
  members : List String
  images : List ImageEntry
  imagesCountRefetches : Nat
  membersCountRefetches : Nat
deriving DecidableEq, Repr

/-- Receipt of a change notification.  The hook registers
`useWatchContractEvent` only for `ImageAdded` and `ImageRemoved`; each of
those handlers runs `setRefreshTrigger(prev => prev + 1)` and
`refetchImagesCount()`.  No watcher exists for member events, so they leave
the state unchanged. -/
def onEvent : EventKind → HookState → HookState
  | .imageAdded, s =>
      { s with refreshTrigger := s.refreshTrigger + 1,
               imagesCountRefetches := s.imagesCountRefetches + 1 }
  | .imageRemoved, s =>
      { s with refreshTrigger := s.refreshTrigger + 1,
               imagesCountRefetches := s.imagesCountRefetches + 1 }
  | .memberAdded, s => s
  | .memberRemoved, s => s

/-- A JavaScript number as far as `BigInt` coercion is concerned: either an
integral value or a non-integral one (fractional, NaN, Infinity) described by
its display text. -/
inductive JSNum where
  | intVal (z : Int)
  | nonIntegral (desc : String)
deriving DecidableEq, Repr

/-- A thrown JavaScript error; `message` is `none` when the thrown value has
no usable `message` property. -/
structure JSError where
  message : Option String
deriving DecidableEq, Repr

/-- The `error.message || fallback` idiom: an absent or empty message falls
back to the generic text. -/
def jsOrElse : Option String → String → String
  | some m, d => if m = "" then d else m
  | none, d => d

/-- `BigInt(numReplicas)`: succeeds (keeping the sign) on an integral value,
throws a RangeError on a non-integral one. -/
def bigIntCoerce : JSNum → Except JSError Int
  | .intVal z => .ok z
  | .nonIntegral d =>
      .error ⟨some ("The number " ++ d ++
        " cannot be converted to a BigInt because it is not an integer")⟩

/-- Outcome of the awaited `writeContractAsync` call when it is reached. -/
inductive WriteOutcome where
  | success (tx : String)
  | failure (e : JSError)
deriving DecidableEq, Repr

/-- A value placed in the write call's `args`: either a plain `BigInt` of the
given number or an opaque ciphertext blob from the encryption collaborator. -/
inductive TxValue where
  | plainBigInt (z : Int)
  | ciphertext (blob : List Nat)
deriving DecidableEq, Repr

/-- Whether a write argument value is ciphertext (what the spec's encryption
collaborator would supply). -/
def isCiphertextArg : TxValue → Bool
  | .plainBigInt _ => false
  | .ciphertext _ => true

/-- The `args` array of the write call actually issued. -/
inductive MutationArgs where
  | add (name : String) (value : TxValue)
  | remove (name : String)
deriving DecidableEq, Repr

/-- Observable result of one `addImage` / `removeImage` invocation:
the state after it settles, how many times `writeContractAsync` ran, the
`args` it received (when it ran), and the JS return value of the async
function (`none` = `undefined`). -/
structure CallResult where
  state : HookState
  writeCalls : Nat
  writeArgs : Option MutationArgs
  returned : Option String
deriving DecidableEq, Repr

/-- The `addImage` callback.  `contractAvailable` is the
`canteenContract && writeContractAsync` guard; `outcome` is what the write
resolves to if it is reached.  The body mirrors the source: early return with
"Contract not available"; otherwise set `isProcessing`/message, then
`try { writeContractAsync({... args: [imageName, BigInt(numReplicas)] }) }`
— a `BigInt` throw happens inside the `try`, before the write —
`catch` sets the error message, `finally` clears `isProcessing`; the function
returns `undefined` on every path.  The outer `Except` is the promise: an
`.error` would be a rejection escaping the callback. -/
def addImage (contractAvailable : Bool) (imageName : String)
    (numReplicas : JSNum) (outcome : WriteOutcome) (s : HookState) :
    Except JSError CallResult :=
  if contractAvailable = false then
    .ok ⟨{ s with message := "Contract not available" }, 0, none, none⟩
  else
    let s1 := { s with isProcessing := true, message := "Adding image..." }
    match bigIntCoerce numReplicas with
    | .error e =>
        .ok ⟨{ s1 with
                 message := "Error: " ++ jsOrElse e.message "Failed to add image",
                 isProcessing := false },
             0, none, none⟩
    | .ok z =>
        match outcome with
        | .success tx =>
            .ok ⟨{ s1 with
                     message := "Image added! Tx: " ++ tx,
                     refreshTrigger := s1.refreshTrigger + 1,
                     imagesCountRefetches := s1.imagesCountRefetches + 1,
                     isProcessing := false },
                 1, some (.add imageName (.plainBigInt z)), none⟩
        | .failure e =>
            .ok ⟨{ s1 with
                     message := "Error: " ++ jsOrElse e.message "Failed to add image",
                     isProcessing := false },
                 1, some (.add imageName (.plainBigInt z)), none⟩

/-- The `removeImage` callback, same shape without the `BigInt` coercion. -/
def removeImage (contractAvailable : Bool) (imageName : String)
    (outcome : WriteOutcome) (s : HookState) :
    Except JSError CallResult :=
  if contractAvailable = false then
    .ok ⟨{ s with message := "Contract not available" }, 0, none, none⟩
  else
    let s1 := { s with isProcessing := true, message := "Removing image..." }
    match outcome with
    | .success tx =>
        .ok ⟨{ s1 with
                 message := "Image removed! Tx: " ++ tx,
                 refreshTrigger := s1.refreshTrigger + 1,
                 imagesCountRefetches := s1.imagesCountRefetches + 1,
                 isProcessing := false },
             1, some (.remove imageName), none⟩
    | .failure e =>
        .ok ⟨{ s1 with
                 message := "Error: " ++ jsOrElse e.message "Failed to remove image",
                 isProcessing := false },
             1, some (.remove imageName), none⟩

/-- Longest leading decimal-digit run of a character list, `none` if empty
(the NaN case of `parseInt`). -/
def leadingDigits (cs : List Char) : Option Nat :=
  let ds := cs.takeWhile Char.isDigit
  if ds.isEmpty then none
  else some (ds.foldl (fun a c => a * 10 + (c.toNat - 48)) 0)

/-- `parseInt(s, 10)`: optional sign, then the longest digit run; NaN (a
non-integral `JSNum`) when no digit follows. -/
def parseIntJS (s : String) : JSNum :=
  match s.trim.toList with
  | '-' :: rest =>
      match leadingDigits rest with
      | none => .nonIntegral "NaN"
      | some n => .intVal (-(n : Int))
  | '+' :: rest =>
      match leadingDigits rest with
      | none => .nonIntegral "NaN"
      | some n => .intVal (n : Int)
  | cs =>
      match leadingDigits cs with
      | none => .nonIntegral "NaN"
      | some n => .intVal (n : Int)

/-- The dashboard's `handleAddImage` submit handler:
`if (!addImageName || !addImageReplicas) return;` (empty strings are falsy),
then `canteen.addImage(addImageName, parseInt(addImageReplicas, 10))`.
`none` means the early return fired and no mutation call was made. -/
def handleAddImage (addImageName addImageReplicas : String)
    (outcome : WriteOutcome) (s : HookState) :
    Option (Except JSError CallResult) :=
  if addImageName = "" ∨ addImageReplicas = "" then none
  else some (addImage true addImageName (parseIntJS addImageReplicas) outcome s)

/-- State after a settled call, `none` if the promise rejected. -/
def resultState : Except JSError CallResult → Option HookState
  | .ok r => some r.state
  | .error _ => none

/-- Number of `writeContractAsync` invocations of a settled call. -/
def resultWriteCalls : Except JSError CallResult → Option Nat
  | .ok r => some r.writeCalls
  | .error _ => none

/-- `args` of the write call issued by a settled call. -/
def resultArgs : Except JSError CallResult → Option MutationArgs
  | .ok r => r.writeArgs
  | .error _ => none

/-- JS return value of a settled call (`none` = `undefined`). -/
def resultReturned : Except JSError CallResult → Option String
  | .ok r => r.returned
  | .error _ => none

/-! Concrete fixtures used by counterexamples and witnesses. -/

/-- Member key table of the remote state seen by a pass started at
generation 1: one member, `hostA`. -/
def genOneMemberAt : Nat → Option String :=
  fun i => if i = 0 then some "hostA" else none

/-- Member details of the generation-1 remote state: every host active. -/
def genOneMemberDetails : String → Option MemberDetails :=
  fun _ => some ⟨"img", true, []⟩

/-- Member key table of the remote state seen by a pass started at
generation 2: the single member is now `hostB`. -/
def genTwoMemberAt : Nat → Option String :=
  fun i => if i = 0 then some "hostB" else none

/-- Member details of the generation-2 remote state. -/
def genTwoMemberDetails : String → Option MemberDetails :=
  fun _ => some ⟨"img", true, []⟩

/-- Pass started under generation 1, materialized over the old remote state. -/
def passA : Pass := ⟨1, fetchMembersPass genOneMemberAt genOneMemberDetails 1⟩

/-- Pass started under generation 2, materialized over the new remote state. -/
def passB : Pass := ⟨2, fetchMembersPass genTwoMemberAt genTwoMemberDetails 1⟩

/-- Freshly mounted hook state. -/
def s0 : HookState := ⟨"", false, 0, [], [], 0, 0⟩

/-- Hook state while a mutation is Pending (`isProcessing` set). -/
def busyState : HookState := ⟨"Adding image...", true, 0, [], [], 0, 0⟩

/-- Image key oracle with no entries (every fetch throws). -/
def noImageAt : Nat → Option String := fun _ => none

/-- Image detail oracle with no entries. -/
def noImageDetails : String → Option ImageDetails := fun _ => none

/-- A kept image entry's name comes from the key fetched at its index. -/
theorem imageStep_name_some (ik : Nat → Option String)
    (idd : String → Option ImageDetails) (i : Nat) (nm : String)
    (h : (imageStep ik idd i).map ImageEntry.name = some nm) :
    ik i = some nm := by
  rcases Option.map_eq_some'.mp h with ⟨e, he, hname⟩
  rcases (imageStep_eq_some ik idd i e).mp he with ⟨nm2, det, hk, _, _, rfl⟩
  simpa [← hname] using hk

/-- C1 counterexample: pass A starts at generation 1 over the old remote
state (member `hostA`), pass B starts at generation 2 over the new remote
state (member `hostB`), and A's async body finishes after B's.  Because each
pass ends with an unconditional `setMembers`, the published list after both
complete is A's `["hostA"]`, not B's result, contradicting the claim that a
stale pass's output is discarded. -/
theorem stale_pass_overwrite_counterexample :
    passA.startGen = 1 ∧ passB.startGen = 2 ∧
    passA.result = ["hostA"] ∧ passB.result = ["hostB"] ∧
    publishAll [passB, passA] [] = ["hostA"] ∧
    publishAll [passB, passA] [] ≠ passB.result := by
  refine ⟨rfl, rfl, rfl, rfl, rfl, ?_⟩
  decide

/-- C1 amended: the reconciliation effects carry no generation tag at their
publish step, so the published list always equals the result of whichever
pass completes last, regardless of the generations the passes started under;
a stale pass finishing later does overwrite a newer pass's output. -/
theorem publishAll_last_completed_wins (ps : List Pass) (p : Pass)
    (init : List String) : publishAll (ps ++ [p]) init = p.result := by
  simp [publishAll, List.foldl_append]

/-- C2 counterexample: with a mutation already Pending (`isProcessing` true),
a second `addImage` call is not rejected with a busy signal: it invokes
`writeContractAsync` (once more) and runs the normal success path. -/
theorem busy_submit_not_rejected_counterexample :
    busyState.isProcessing = true ∧
    resultWriteCalls
      (addImage true "nginx" (JSNum.intVal 3) (WriteOutcome.success "0x1")
        busyState) = some 1 ∧
    resultWriteCalls
      (addImage true "nginx" (JSNum.intVal 3) (WriteOutcome.success "0x1")
        busyState) ≠ some 0 ∧
    (resultState
      (addImage true "nginx" (JSNum.intVal 3) (WriteOutcome.success "0x1")
        busyState) |>.map HookState.message) = some "Image added! Tx: 0x1" := by
  refine ⟨rfl, rfl, ?_, rfl⟩
  decide

/-- C2 amended: neither `addImage` nor `removeImage` checks `isProcessing`:
a submission made while another mutation is Pending proceeds and invokes the
registry write entry point again (exactly once for this call); the only
concurrency gating is the dashboard UI disabling its buttons. -/
theorem submit_while_pending_invokes_write (s : HookState) (name : String)
    (z : Int) (o : WriteOutcome) (_h : s.isProcessing = true) :
    resultWriteCalls (addImage true name (JSNum.intVal z) o s) = some 1 ∧
    resultWriteCalls (removeImage true name o s) = some 1 := by
  cases o <;> exact ⟨rfl, rfl⟩

/-- Witness for the C2 amended theorem at a concrete Pending state. -/
theorem submit_while_pending_invokes_write_witness :
    busyState.isProcessing = true ∧
    (resultWriteCalls
       (addImage true "redis" (JSNum.intVal 2) (WriteOutcome.success "0x2")
         busyState) = some 1 ∧
     resultWriteCalls
       (removeImage true "redis" (WriteOutcome.success "0x2") busyState) =
       some 1) :=
  ⟨rfl, submit_while_pending_invokes_write busyState "redis" 2
    (WriteOutcome.success "0x2") rfl⟩

/-- C3: for every count and per-entry failure pattern, each completed pass
produces a list of length at most `count`, containing exactly the entries
whose key and detail fetches both succeeded and whose `active` flag is true,
in their original relative index order (an order-preserving selection of the
successfully fetched keys); a failed entry is skipped without aborting. -/
theorem reconcile_active_filter_correct
    (mk : Nat → Option String) (md : String → Option MemberDetails)
    (ik : Nat → Option String) (idd : String → Option ImageDetails)
    (count : Nat) :
    (fetchMembersPass mk md count).length ≤ count ∧
    (∀ h : String, h ∈ fetchMembersPass mk md count ↔
      ∃ i, i < count ∧ mk i = some h ∧
        ∃ d, md h = some d ∧ d.active = true) ∧
    List.Sublist (fetchMembersPass mk md count)
      ((List.range count).filterMap mk) ∧
    (fetchImagesPass ik idd count).length ≤ count ∧
    (∀ e : ImageEntry, e ∈ fetchImagesPass ik idd count ↔
      ∃ i, i < count ∧ ∃ nm d, ik i = some nm ∧ idd nm = some d ∧
        d.active = true ∧ e = ⟨nm, d.replicas, d.deployed, true⟩) ∧
    List.Sublist ((fetchImagesPass ik idd count).map ImageEntry.name)
      ((List.range count).filterMap ik) := by
  refine ⟨?_, ?_, ?_, ?_, ?_, ?_⟩
  · simpa using List.length_filterMap_le (memberStep mk md) (List.range count)
  · intro h
    simp only [fetchMembersPass, List.mem_filterMap, List.mem_range,
      memberStep_eq_some]
  · exact filterMap_sublist_of_imp _ _ _
      (fun i h hi => ((memberStep_eq_some mk md i h).mp hi).1)
  · simpa using List.length_filterMap_le (imageStep ik idd) (List.range count)
  · intro e
    simp only [fetchImagesPass, List.mem_filterMap, List.mem_range,
      imageStep_eq_some]
  · rw [fetchImagesPass, List.map_filterMap]
    exact filterMap_sublist_of_imp _ _ _
      (fun i nm hi => imageStep_name_some ik idd i nm hi)

/-- C4 counterexample: a `MemberAdded` notification has no registered
watcher, so its receipt neither bumps the refresh generation nor requests an
updated members count — the hook state is unchanged. -/
theorem member_event_no_bump_counterexample :
    onEvent EventKind.memberAdded s0 = s0 ∧
    (onEvent EventKind.memberAdded s0).refreshTrigger = s0.refreshTrigger ∧
    ¬ s0.refreshTrigger < (onEvent EventKind.memberAdded s0).refreshTrigger ∧
    (onEvent EventKind.memberAdded s0).membersCountRefetches =
      s0.membersCountRefetches := by
  refine ⟨rfl, rfl, ?_, rfl⟩
  decide

/-- C4 amended: only the image-collection notifications (`ImageAdded`,
`ImageRemoved`) are subscribed; each bumps the refresh generation by one and
refetches the images count, while member events leave the state unchanged. -/
theorem event_bump_images_only (s : HookState) :
    (onEvent EventKind.imageAdded s).refreshTrigger = s.refreshTrigger + 1 ∧
    (onEvent EventKind.imageAdded s).imagesCountRefetches =
      s.imagesCountRefetches + 1 ∧
    (onEvent EventKind.imageRemoved s).refreshTrigger = s.refreshTrigger + 1 ∧
    (onEvent EventKind.imageRemoved s).imagesCountRefetches =
      s.imagesCountRefetches + 1 ∧
    onEvent EventKind.memberAdded s = s ∧
    onEvent EventKind.memberRemoved s = s :=
  ⟨rfl, rfl, rfl, rfl, rfl, rfl⟩

/-- C5 counterexample: `addImage("nginx", 3)` hands the registry write the
plain `BigInt(3)`, not a ciphertext from the encryption collaborator. -/
theorem plaintext_replicas_counterexample :
    resultArgs
      (addImage true "nginx" (JSNum.intVal 3) (WriteOutcome.success "0xabc")
        s0) = some (MutationArgs.add "nginx" (TxValue.plainBigInt 3)) ∧
    isCiphertextArg (TxValue.plainBigInt 3) = false :=
  ⟨rfl, rfl⟩

/-- C5 amended: whenever the write entry point is reached, the replica count
it receives is the plaintext `BigInt` of the submitted number; the encryption
collaborator's output is never used in the write path. -/
theorem addImage_passes_plain_bigint (name : String) (z : Int)
    (o : WriteOutcome) (s : HookState) :
    resultArgs (addImage true name (JSNum.intVal z) o s) =
      some (MutationArgs.add name (TxValue.plainBigInt z)) ∧
    isCiphertextArg (TxValue.plainBigInt z) = false := by
  cases o <;> exact ⟨rfl, rfl⟩

/-- C6 counterexample: on a successful write the callback's promise resolves
to `undefined` — the transaction reference is not returned to the caller. -/
theorem success_returns_undefined_counterexample :
    resultReturned
      (addImage true "nginx" (JSNum.intVal 3) (WriteOutcome.success "0xabc")
        s0) = none ∧
    (none : Option String) ≠ some "0xabc" ∧
    resultReturned
      (removeImage true "nginx" (WriteOutcome.success "0xdef") s0) = none := by
  refine ⟨rfl, ?_, rfl⟩
  decide

/-- C6 amended: on write success the StatusMessage is set to a text embedding
the transaction reference and the refresh generation is bumped (and the
images count refetched), but the function returns `undefined` rather than the
transaction reference. -/
theorem mutation_success_message_bump_no_return (s : HookState)
    (name : String) (z : Int) (tx : String) :
    resultState (addImage true name (JSNum.intVal z)
        (WriteOutcome.success tx) s) =
      some { s with
              message := "Image added! Tx: " ++ tx,
              refreshTrigger := s.refreshTrigger + 1,
              imagesCountRefetches := s.imagesCountRefetches + 1,
              isProcessing := false } ∧
    resultReturned (addImage true name (JSNum.intVal z)
        (WriteOutcome.success tx) s) = none ∧
    resultState (removeImage true name (WriteOutcome.success tx) s) =
      some { s with
              message := "Image removed! Tx: " ++ tx,
              refreshTrigger := s.refreshTrigger + 1,
              imagesCountRefetches := s.imagesCountRefetches + 1,
              isProcessing := false } ∧
    resultReturned (removeImage true name (WriteOutcome.success tx) s) =
      none :=
  ⟨rfl, rfl, rfl, rfl⟩

/-- C7: when the registry write fails, the state returns to Idle
(`isProcessing` cleared — and it is cleared on the success and coercion-error
exit paths too), the StatusMessage carries the failure's text or the generic
fallback, the refresh generation and the published lists (hence the derived
counts) are untouched, and the write was invoked exactly once (no automatic
retry). -/
theorem mutation_failure_idle_no_bump (s : HookState) (name : String)
    (z : Int) (e : JSError) (tx : String) (d : String) :
    resultState (addImage true name (JSNum.intVal z)
        (WriteOutcome.failure e) s) =
      some { s with
             message := "Error: " ++ jsOrElse e.message "Failed to add image",
             isProcessing := false } ∧
    resultWriteCalls (addImage true name (JSNum.intVal z)
        (WriteOutcome.failure e) s) = some 1 ∧
    resultState (removeImage true name (WriteOutcome.failure e) s) =
      some { s with
             message := "Error: " ++
               jsOrElse e.message "Failed to remove image",
             isProcessing := false } ∧
    resultWriteCalls (removeImage true name (WriteOutcome.failure e) s) =
      some 1 ∧
    (resultState (addImage true name (JSNum.intVal z)
        (WriteOutcome.success tx) s) |>.map HookState.isProcessing) =
      some false ∧
    (resultState (addImage true name (JSNum.nonIntegral d)
        (WriteOutcome.failure e) s) |>.map HookState.isProcessing) =
      some false ∧
    (resultState (removeImage true name (WriteOutcome.success tx) s)
      |>.map HookState.isProcessing) = some false :=
  ⟨rfl, rfl, rfl, rfl, rfl, rfl, rfl⟩

/-- C8 counterexample: a direct `addImage("", -5)` call through the hook's
exposed surface reaches the registry write with an empty image name and a
negative replica count — neither is validated away. -/
theorem unvalidated_args_counterexample :
    resultArgs (addImage true "" (JSNum.intVal (-5))
        (WriteOutcome.success "0x1") s0) =
      some (MutationArgs.add "" (TxValue.plainBigInt (-5))) ∧
    resultWriteCalls (addImage true "" (JSNum.intVal (-5))
        (WriteOutcome.success "0x1") s0) = some 1 ∧
    (-5 : Int) < 0 := by
  refine ⟨rfl, rfl, ?_⟩
  decide

/-- C8 amended: the hook itself validates nothing — the name is forwarded
verbatim (possibly empty) and the replica count is coerced by `BigInt` to an
integral value that may be negative, while a non-integral count makes the
coercion throw before the write is reached; the only emptiness guard is the
dashboard form handler's falsy-string check. -/
theorem addImage_args_unvalidated (name rs : String) (z : Int)
    (o : WriteOutcome) (s : HookState) (d : String) :
    resultArgs (addImage true name (JSNum.intVal z) o s) =
      some (MutationArgs.add name (TxValue.plainBigInt z)) ∧
    resultWriteCalls (addImage true name (JSNum.nonIntegral d) o s) =
      some 0 ∧
    handleAddImage "" rs o s = none ∧
    handleAddImage name "" o s = none := by
  refine ⟨?_, rfl, ?_, ?_⟩
  · cases o <;> rfl
  · simp [handleAddImage]
  · simp [handleAddImage]

/-- C9: when the collection's count reads as zero or is still
unknown/undefined, or the registry handle is unresolved, the effect performs
no fetch and leaves the previously published list untouched; a zero count and
an unknown count behave identically. -/
theorem zero_or_unknown_count_skips_fetch (c p : Bool) (mc ic : Option Nat)
    (mk : Nat → Option String) (md : String → Option MemberDetails)
    (ik : Nat → Option String) (idd : String → Option ImageDetails)
    (priorM : List String) (priorI : List ImageEntry)
    (hm : mc = none ∨ mc = some 0 ∨ c = false)
    (hi : ic = none ∨ ic = some 0 ∨ c = false) :
    fetchMembersEffect c p mc mk md priorM = priorM ∧
    fetchImagesEffect c p ic ik idd priorI = priorI ∧
    fetchMembersEffect c p none mk md priorM =
      fetchMembersEffect c p (some 0) mk md priorM ∧
    fetchImagesEffect c p none ik idd priorI =
      fetchImagesEffect c p (some 0) ik idd priorI := by
  refine ⟨?_, ?_, ?_, ?_⟩
  · rcases hm with h | h | h <;> subst h <;>
      simp [fetchMembersEffect, jsTruthyCount]
  · rcases hi with h | h | h <;> subst h <;>
      simp [fetchImagesEffect, jsTruthyCount]
  · simp [fetchMembersEffect, jsTruthyCount]
  · simp [fetchImagesEffect, jsTruthyCount]

/-- Witness for C9 at concrete inputs: zero and unknown counts both leave a
concrete prior list in place. -/
theorem zero_or_unknown_count_skips_fetch_witness :
    ((some 0 : Option Nat) = none ∨ (some 0 : Option Nat) = some 0 ∨
      true = false) ∧
    ((none : Option Nat) = none ∨ (none : Option Nat) = some 0 ∨
      true = false) ∧
    (fetchMembersEffect true true (some 0) genOneMemberAt genOneMemberDetails
        ["hostA"] = ["hostA"] ∧
     fetchImagesEffect true true none noImageAt noImageDetails [] = [] ∧
     fetchMembersEffect true true none genOneMemberAt genOneMemberDetails
       ["hostA"] =
       fetchMembersEffect true true (some 0) genOneMemberAt
         genOneMemberDetails ["hostA"] ∧
     fetchImagesEffect true true none noImageAt noImageDetails [] =
       fetchImagesEffect true true (some 0) noImageAt noImageDetails []) :=
  ⟨by decide, by decide,
   zero_or_unknown_count_skips_fetch true true (some 0) none genOneMemberAt
     genOneMemberDetails noImageAt noImageDetails ["hostA"] []
     (by decide) (by decide)⟩

/-- C10: `addImage` and `removeImage` always settle without rejecting — for
contract-unavailable early returns, write success, write failure, and a
`BigInt` coercion throw alike — and an error surfaces only through the
StatusMessage string. -/
theorem mutation_never_throws (c : Bool) (name : String) (r : JSNum)
    (o : WriteOutcome) (s : HookState) (e : JSError) (d : String) :
    (addImage c name r o s).isOk = true ∧
    (removeImage c name o s).isOk = true ∧
    (resultState (addImage true name (JSNum.nonIntegral d) o s)
      |>.map HookState.message) =
      some ("Error: " ++
        jsOrElse (some ("The number " ++ d ++
          " cannot be converted to a BigInt because it is not an integer"))
          "Failed to add image") ∧
    (resultState (addImage true name (JSNum.intVal 0)
        (WriteOutcome.failure e) s) |>.map HookState.message) =
      some ("Error: " ++ jsOrElse e.message "Failed to add image") := by
    refine ⟨?_, ?_, ?_, rfl⟩
    · cases c <;> cases r <;> cases o <;> rfl
    · cases c <;> cases o <;> rfl
    · cases o <;> rfl

end Canteen
